import Mathlib

/-!
Shallow embedding of `src/be/src/storage/lake/tablet.cpp` (the lake `Tablet`
façade of StarRocks) together with the parts of its collaborators that the
façade's contracts depend on (the metadata store and the location provider,
modelled from the specification since their code is outside the sources).
Machine integers (`int64_t`, `uint32_t`, `size_t`) are modelled as `Int` and
`Nat`; none of the embedded functions performs arithmetic that can overflow.
`StatusOr<T>` is modelled as `Except Status T`.
-/

namespace SRLake

/-- Error categories of the engine's `Status` values that the façade's
contracts distinguish. -/
inductive ErrCode where
  | notFound
  | alreadyExists
  | invalidArgument
  | corruption
  | ioError
deriving DecidableEq, Repr

/-- A `Status` error value: an error category plus a message. -/
structure Status where
  code : ErrCode
  msg : String
deriving DecidableEq, Repr

/-- `StatusOr<T>`: either an error `Status` or a value. -/
abbrev StatusOr (α : Type) := Except Status α

/-- Key models of a tablet schema (`KeysType` of the storage engine). -/
inductive KeysType where
  | DUP_KEYS
  | UNIQUE_KEYS
  | AGG_KEYS
  | PRIMARY_KEYS
deriving DecidableEq, Repr

/-- The schema message embedded in tablet metadata (`TabletSchemaPB`);
only the fields the façade consults are modelled. -/
structure TabletSchemaPB where
  id : Int
  keys_type : KeysType
deriving DecidableEq, Repr

/-- The in-memory `TabletSchema` object built from a `TabletSchemaPB`. -/
structure TabletSchema where
  id : Int
  keys_type : KeysType
deriving DecidableEq, Repr

/-- Construction of a `TabletSchema` from the protobuf message, as done by
`std::make_shared<TabletSchema>(_tablet_metadata->schema())`. -/
def TabletSchema.fromPB (pb : TabletSchemaPB) : TabletSchema :=
  { id := pb.id, keys_type := pb.keys_type }

/-- A delete predicate message (`DeletePredicatePB`): a version plus an
opaque list of conditions (the façade never inspects the payload, it only
copies it whole via `CopyFrom`). -/
structure DeletePredicatePB where
  version : Int
  conds : List String
deriving DecidableEq, Repr

/-- A rowset metadata message (`RowsetMetadataPB`); the fields set by
`Tablet::delete_data` and inspected by `Tablet::has_delete_predicates`. -/
structure RowsetMetadataPB where
  overlapped : Bool
  num_rows : Nat
  data_size : Nat
  delete_predicate : Option DeletePredicatePB
deriving DecidableEq, Repr

/-- `has_delete_predicate()` of a rowset message: whether the optional
`delete_predicate` field is set. -/
def RowsetMetadataPB.has_delete_predicate (r : RowsetMetadataPB) : Bool :=
  r.delete_predicate.isSome

/-- A tablet metadata snapshot (`TabletMetadataPB`): tablet id, version,
embedded schema and the ordered rowset list. -/
structure TabletMetadataPB where
  id : Int
  version : Int
  schema : TabletSchemaPB
  rowsets : List RowsetMetadataPB
deriving DecidableEq, Repr

/-- The write operation of a transaction log (`TxnLogPB::OpWrite`); the
façade's `delete_data` only fills its `rowset` field. -/
structure TxnOpWrite where
  rowset : RowsetMetadataPB
deriving DecidableEq, Repr

/-- A transaction log message (`TxnLogPB`): tablet id, transaction id and
the (optional) write operation payload. -/
structure TxnLog where
  tablet_id : Int
  txn_id : Int
  op_write : Option TxnOpWrite
deriving DecidableEq, Repr

/-- Modelled from the spec: the state of the Metadata Store Interface
(`TabletManager` is not among the sources). Immutable metadata objects are
keyed by (tablet id, version) and pending transaction logs by
(tablet id, transaction id). -/
structure MetaStore where
  metas : List (Int × Int × TabletMetadataPB)
  pendingLogs : List (Int × Int × TxnLog)
deriving Repr

/-- Lookup of the metadata object stored for (tablet id, version). -/
def MetaStore.findMeta (s : MetaStore) (tablet_id version : Int) : Option TabletMetadataPB :=
  (s.metas.find? fun e => e.1 == tablet_id && e.2.1 == version).map (·.2.2)

/-- Lookup of the pending transaction log stored for (tablet id, txn id). -/
def MetaStore.findPending (s : MetaStore) (tablet_id txn_id : Int) : Option TxnLog :=
  (s.pendingLogs.find? fun e => e.1 == tablet_id && e.2.1 == txn_id).map (·.2.2)

/-- Modelled from the spec: `TabletManager::get_tablet_metadata` (not among
the sources) — `get(key) -> bytes | NotFound`: returns the immutable
metadata at (tablet id, version), or a NotFound status when absent. -/
def MetaStore.get_tablet_metadata (s : MetaStore) (tablet_id version : Int) :
    StatusOr TabletMetadataPB :=
  match s.findMeta tablet_id version with
  | some m => Except.ok m
  | none => Except.error { code := ErrCode.notFound, msg := "tablet metadata not found" }

/-- Modelled from the spec: `TabletManager::put_txn_log` (not among the
sources) — `put(key, bytes)` atomic-create-or-fail: stores the log as the
pending log of its (tablet id, txn id) key, failing with AlreadyExists when
a pending log for that key already exists. -/
def MetaStore.put_txn_log (s : MetaStore) (log : TxnLog) : StatusOr MetaStore :=
  match s.findPending log.tablet_id log.txn_id with
  | some _ => Except.error { code := ErrCode.alreadyExists, msg := "txn log already exists" }
  | none => Except.ok { s with pendingLogs := (log.tablet_id, log.txn_id, log) :: s.pendingLogs }

/-- Modelled from the spec: the Location/Naming component
(`LocationProvider`, not among the sources) — deterministic key derivation,
all pure functions of (tablet id, numeric id, optional name). -/
structure LocationProvider where
  tablet_metadata_location : Int → Int → String
  metadata_root_location : Int → String
  txn_log_location : Int → Int → String
  txn_vlog_location : Int → Int → String
  segment_location : Int → String → String
  del_location : Int → String → String
  delvec_location : Int → String → String
  root_location : Int → String

/-- Modelled from the spec: the two location derivations the façade reaches
through the manager rather than the location provider (`txn_slog_location`
and `sst_location` of `TabletManager`, not among the sources) — likewise
pure functions of (tablet id, numeric id or name). -/
structure MgrLocations where
  txn_slog_location : Int → Int → String
  sst_location : Int → String → String

/-- The `Tablet` façade state: the stable id `_id`, the opportunistic
`_version_hint`, and the two caches `_tablet_schema` (here `cached_schema`)
and `_tablet_metadata` (here `cached_metadata`). -/
structure Tablet where
  id : Int
  version_hint : Int
  cached_schema : Option TabletSchema
  cached_metadata : Option TabletMetadataPB
deriving Repr

/-- `Tablet::get_metadata(version)`: forwards to the store's
`get_tablet_metadata(_id, version)`. -/
def Tablet.get_metadata (s : MetaStore) (t : Tablet) (version : Int) :
    StatusOr TabletMetadataPB :=
  s.get_tablet_metadata t.id version

/-- `Tablet::put_txn_log(log)`: forwards to the store's `put_txn_log`. -/
def Tablet.put_txn_log (s : MetaStore) (_t : Tablet) (log : TxnLog) : StatusOr MetaStore :=
  s.put_txn_log log

/-- `Tablet::get_schema()` (lines 107-115): returns the cached schema if
present; else a schema built from the cached metadata if present; else the
manager's `get_tablet_schema(_id, &_version_hint)`. The manager call is an
abstract parameter (its code is outside the sources); the second component
records whether the underlying store was consulted. -/
def Tablet.get_schema (mgr_get_schema : Int → Option Int → StatusOr TabletSchema)
    (t : Tablet) : StatusOr TabletSchema × Bool :=
  match t.cached_schema with
  | some s => (Except.ok s, false)
  | none =>
    match t.cached_metadata with
    | some m => (Except.ok (TabletSchema.fromPB m.schema), false)
    | none => (mgr_get_schema t.id (some t.version_hint), true)

/-- `Tablet::tablet_schema()` (lines 99-105): calls the manager's
`get_tablet_schema(_id, nullptr)` and returns `nullptr` (here `none`) when
the call fails, the schema otherwise. -/
def Tablet.tablet_schema (mgr_get_schema : Int → Option Int → StatusOr TabletSchema)
    (t : Tablet) : Option TabletSchema :=
  match mgr_get_schema t.id none with
  | Except.ok s => some s
  | Except.error _ => none

/-- `Tablet::get_schema_by_id(schema_id)`: forwards to the manager's
schema-by-id side table (abstract parameter; code outside the sources). -/
def Tablet.get_schema_by_id (mgr_get_schema_by_id : Int → Int → StatusOr TabletSchema)
    (t : Tablet) (schema_id : Int) : StatusOr TabletSchema :=
  mgr_get_schema_by_id t.id schema_id

/-- The batching mode argument of `Tablet::new_writer` (`WriterType`). -/
inductive WriterType where
  | kHorizontal
  | kVertical
deriving DecidableEq, Repr

/-- The four writer variants `Tablet::new_writer` can construct, each
carrying exactly the constructor arguments the façade passes (the manager
pointer is the ambient store and the thread pool is an opaque handle). -/
inductive TabletWriter where
  | horizontalPk (tablet_id : Int) (schema : TabletSchema) (txn_id : Int)
      (flush_pool : Nat) (is_compaction : Bool)
  | verticalPk (tablet_id : Int) (schema : TabletSchema) (txn_id : Int)
      (max_rows_per_segment : Nat) (flush_pool : Nat) (is_compaction : Bool)
  | horizontalGeneral (tablet_id : Int) (schema : TabletSchema) (txn_id : Int)
      (is_compaction : Bool) (flush_pool : Nat)
  | verticalGeneral (tablet_id : Int) (schema : TabletSchema) (txn_id : Int)
      (max_rows_per_segment : Nat) (is_compaction : Bool) (flush_pool : Nat)
deriving DecidableEq, Repr

/-- `Tablet::new_writer(type, txn_id, max_rows_per_segment, flush_pool,
is_compaction)` (lines 74-97): resolves the schema through `get_schema()`
(propagating its failure), then selects the writer variant by the schema's
key type and the batching mode, forwarding the arguments verbatim. -/
def Tablet.new_writer (mgr_get_schema : Int → Option Int → StatusOr TabletSchema)
    (t : Tablet) (type : WriterType) (txn_id : Int) (max_rows_per_segment : Nat)
    (flush_pool : Nat) (is_compaction : Bool) : StatusOr TabletWriter :=
  match (t.get_schema mgr_get_schema).1 with
  | Except.error e => Except.error e
  | Except.ok tablet_schema =>
    if tablet_schema.keys_type = KeysType.PRIMARY_KEYS then
      match type with
      | WriterType.kHorizontal =>
        Except.ok (TabletWriter.horizontalPk t.id tablet_schema txn_id flush_pool is_compaction)
      | WriterType.kVertical =>
        Except.ok (TabletWriter.verticalPk t.id tablet_schema txn_id max_rows_per_segment
          flush_pool is_compaction)
    else
      match type with
      | WriterType.kHorizontal =>
        Except.ok (TabletWriter.horizontalGeneral t.id tablet_schema txn_id is_compaction
          flush_pool)
      | WriterType.kVertical =>
        Except.ok (TabletWriter.verticalGeneral t.id tablet_schema txn_id max_rows_per_segment
          is_compaction flush_pool)

/-- Modelled from the spec: `Rowset::get_rowsets(mgr, metadata)` (not among
the sources) — snapshot-scoped Rowset enumeration: the Rowset list of the
metadata snapshot. -/
def Rowset.get_rowsets (m : TabletMetadataPB) : List RowsetMetadataPB :=
  m.rowsets

/-- `Tablet::get_rowsets(version)` (lines 121-128): resolves the metadata at
`version` (propagating its failure verbatim), then extracts its Rowset
list. -/
def Tablet.get_rowsets (s : MetaStore) (t : Tablet) (version : Int) :
    StatusOr (List RowsetMetadataPB) :=
  match t.get_metadata s version with
  | Except.error e => Except.error e
  | Except.ok m => Except.ok (Rowset.get_rowsets m)

/-- `Tablet::delete_data(txn_id, delete_predicate)` (lines 170-181): builds
a fresh `TxnLog` with this tablet's id, the given txn id, and a write
operation holding one synthetic rowset (overlapped false, zero rows, zero
bytes, predicate copied in), then stores it through `put_txn_log`. -/
def Tablet.delete_data (s : MetaStore) (t : Tablet) (txn_id : Int)
    (delete_predicate : DeletePredicatePB) : StatusOr MetaStore :=
  let txn_log : TxnLog :=
    { tablet_id := t.id
      txn_id := txn_id
      op_write := some
        { rowset :=
          { overlapped := false
            num_rows := 0
            data_size := 0
            delete_predicate := some delete_predicate } } }
  t.put_txn_log s txn_log

/-- `Tablet::has_delete_predicates(version)` (lines 183-191): resolves the
metadata at `version` (propagating its failure), then scans the rowset list
for one carrying a delete predicate. -/
def Tablet.has_delete_predicates (s : MetaStore) (t : Tablet) (version : Int) :
    StatusOr Bool :=
  match t.get_metadata s version with
  | Except.error e => Except.error e
  | Except.ok m => Except.ok (m.rowsets.any fun r => r.has_delete_predicate)

/-- `Tablet::data_size()` (lines 193-201): asks the manager for the tablet
data size (an abstract lookup taking the id and the version hint, code
outside the sources); on success returns the value, on any failure returns
0 after logging a warning (logging is outside the model). -/
def Tablet.data_size (mgr_get_tablet_data_size : Int → Int → StatusOr Int)
    (t : Tablet) : Int :=
  match mgr_get_tablet_data_size t.id t.version_hint with
  | Except.ok v => v
  | Except.error _ => 0

/-- `Tablet::num_rows()` (lines 203-213), release semantics (the `DCHECK`
compiled out): asks the manager for the row count at the hinted version; on
success returns the value, on any failure returns 0 after logging a warning
(logging is outside the model). -/
def Tablet.num_rows (mgr_get_tablet_num_rows : Int → Int → StatusOr Nat)
    (t : Tablet) : Nat :=
  match mgr_get_tablet_num_rows t.id t.version_hint with
  | Except.ok v => v
  | Except.error _ => 0

/-- `Tablet::num_rows()` under debug semantics: the
`DCHECK(_version_hint != 0)` on line 205 aborts (here `none`) when the
version hint is zero; otherwise the function proceeds as `num_rows`. -/
def Tablet.num_rows_dbg (mgr_get_tablet_num_rows : Int → Int → StatusOr Nat)
    (t : Tablet) : Option Nat :=
  if t.version_hint = 0 then none
  else some (t.num_rows mgr_get_tablet_num_rows)

/-- `Tablet::metadata_location(version)` (lines 130-132). -/
def Tablet.metadata_location (lp : LocationProvider) (t : Tablet) (version : Int) : String :=
  lp.tablet_metadata_location t.id version

/-- `Tablet::metadata_root_location()` (lines 134-136). -/
def Tablet.metadata_root_location (lp : LocationProvider) (t : Tablet) : String :=
  lp.metadata_root_location t.id

/-- `Tablet::txn_log_location(txn_id)` (lines 138-140). -/
def Tablet.txn_log_location (lp : LocationProvider) (t : Tablet) (txn_id : Int) : String :=
  lp.txn_log_location t.id txn_id

/-- `Tablet::txn_slog_location(txn_id)` (lines 142-144), routed through the
manager. -/
def Tablet.txn_slog_location (ml : MgrLocations) (t : Tablet) (txn_id : Int) : String :=
  ml.txn_slog_location t.id txn_id

/-- `Tablet::txn_vlog_location(version)` (lines 146-148). -/
def Tablet.txn_vlog_location (lp : LocationProvider) (t : Tablet) (version : Int) : String :=
  lp.txn_vlog_location t.id version

/-- `Tablet::segment_location(segment_name)` (lines 150-152). -/
def Tablet.segment_location (lp : LocationProvider) (t : Tablet) (segment_name : String) : String :=
  lp.segment_location t.id segment_name

/-- `Tablet::del_location(del_name)` (lines 154-156). -/
def Tablet.del_location (lp : LocationProvider) (t : Tablet) (del_name : String) : String :=
  lp.del_location t.id del_name

/-- `Tablet::delvec_location(delvec_name)` (lines 158-160). -/
def Tablet.delvec_location (lp : LocationProvider) (t : Tablet) (delvec_name : String) : String :=
  lp.delvec_location t.id delvec_name

/-- `Tablet::sst_location(sst_name)` (lines 162-164), routed through the
manager. -/
def Tablet.sst_location (ml : MgrLocations) (t : Tablet) (sst_name : String) : String :=
  ml.sst_location t.id sst_name

/-- `Tablet::root_location()` (lines 166-168). -/
def Tablet.root_location (lp : LocationProvider) (t : Tablet) : String :=
  lp.root_location t.id

/-- A concrete delete predicate used by the concrete evaluations below. -/
def predW : DeletePredicatePB := { version := 2, conds := ["k < 10"] }

/-- A concrete synthetic rowset carrying `predW`. -/
def rowsetW : RowsetMetadataPB :=
  { overlapped := false, num_rows := 0, data_size := 0, delete_predicate := some predW }

/-- A concrete metadata snapshot of tablet 1 at version 2 with one rowset. -/
def metaW : TabletMetadataPB :=
  { id := 1, version := 2, schema := { id := 10, keys_type := KeysType.DUP_KEYS },
    rowsets := [rowsetW] }

/-- A concrete store holding `metaW` and no pending logs. -/
def storeW : MetaStore := { metas := [(1, 2, metaW)], pendingLogs := [] }

/-- A concrete empty store. -/
def store0 : MetaStore := { metas := [], pendingLogs := [] }

/-- A freshly-constructed tablet handle for tablet 1 (no caches, hint 0). -/
def tabletW : Tablet :=
  { id := 1, version_hint := 0, cached_schema := none, cached_metadata := none }

/-- A tablet handle for tablet 1 whose version hint has been set to 2. -/
def tabletHint2 : Tablet :=
  { id := 1, version_hint := 2, cached_schema := none, cached_metadata := none }

/-- A concrete non-primary-key schema. -/
def schemaDup : TabletSchema := { id := 10, keys_type := KeysType.DUP_KEYS }

/-- A concrete primary-key schema. -/
def schemaPk : TabletSchema := { id := 11, keys_type := KeysType.PRIMARY_KEYS }

/-- A tablet handle with `schemaDup` cached. -/
def tabletDup : Tablet :=
  { id := 1, version_hint := 0, cached_schema := some schemaDup, cached_metadata := none }

/-- A tablet handle with `schemaPk` cached. -/
def tabletPk : Tablet :=
  { id := 1, version_hint := 0, cached_schema := some schemaPk, cached_metadata := none }

/-- A manager schema lookup that always fails with an IO error. -/
def mgrErr : Int → Option Int → StatusOr TabletSchema :=
  fun _ _ => Except.error { code := ErrCode.ioError, msg := "io error" }

/-- A data-size lookup that always fails with an IO error. -/
def lookupErrI : Int → Int → StatusOr Int :=
  fun _ _ => Except.error { code := ErrCode.ioError, msg := "io error" }

/-- A row-count lookup that always returns 5. -/
def lookupOkN : Int → Int → StatusOr Nat := fun _ _ => Except.ok 5

/-- A concrete location provider deriving keys from the numeric ids. -/
def lpW : LocationProvider :=
  { tablet_metadata_location := fun a b => toString a ++ "/meta/" ++ toString b
    metadata_root_location := fun a => toString a ++ "/meta"
    txn_log_location := fun a b => toString a ++ "/log/" ++ toString b
    txn_vlog_location := fun a b => toString a ++ "/vlog/" ++ toString b
    segment_location := fun a n => toString a ++ "/seg/" ++ n
    del_location := fun a n => toString a ++ "/del/" ++ n
    delvec_location := fun a n => toString a ++ "/delvec/" ++ n
    root_location := fun a => toString a }

/-- Concrete manager-routed location derivations. -/
def mlW : MgrLocations :=
  { txn_slog_location := fun a b => toString a ++ "/slog/" ++ toString b
    sst_location := fun a n => toString a ++ "/sst/" ++ n }

/-- Claim C1: for every version at which tablet metadata exists,
`has_delete_predicates` returns `ok true` iff at least one rowset of that
version's rowset list carries a delete predicate, and in particular returns
`ok false` when the rowset list is empty. -/
theorem has_delete_predicates_iff (s : MetaStore) (t : Tablet) (v : Int)
    (m : TabletMetadataPB) (h : t.get_metadata s v = Except.ok m) :
    (t.has_delete_predicates s v = Except.ok true ↔
      ∃ r ∈ m.rowsets, r.has_delete_predicate) ∧
    (m.rowsets = [] → t.has_delete_predicates s v = Except.ok false) := by
  constructor
  · unfold Tablet.has_delete_predicates
    rw [h]
    simp [List.any_eq_true]
  · intro hnil
    unfold Tablet.has_delete_predicates
    rw [h]
    simp [hnil]

/-- Witness for C1 at tablet 1, version 2 of the concrete store. -/
theorem has_delete_predicates_iff_witness :
    tabletW.get_metadata storeW 2 = Except.ok metaW ∧
    (tabletW.has_delete_predicates storeW 2 = Except.ok true ↔
      ∃ r ∈ metaW.rowsets, r.has_delete_predicate) :=
  ⟨rfl, (has_delete_predicates_iff storeW tabletW 2 metaW rfl).1⟩

/-- Claim C2: `delete_data(txn_id, P)` hands the store a `TxnLog` whose
tablet id is the tablet's id, whose txn id is `txn_id`, and whose write
operation holds exactly one synthetic rowset (overlapped false, zero rows,
zero bytes, predicate `P`), returning the store's status; when the store
accepts it, the log is retrievable as the pending log of (tablet, txn). -/
theorem delete_data_builds_log (s : MetaStore) (t : Tablet) (txn : Int)
    (p : DeletePredicatePB) (hfree : s.findPending t.id txn = none) :
    t.delete_data s txn p =
      t.put_txn_log s
        { tablet_id := t.id
          txn_id := txn
          op_write := some
            { rowset :=
              { overlapped := false
                num_rows := 0
                data_size := 0
                delete_predicate := some p } } } ∧
    ∃ s2 : MetaStore,
      t.delete_data s txn p = Except.ok s2 ∧
      s2.findPending t.id txn =
        some
          { tablet_id := t.id
            txn_id := txn
            op_write := some
              { rowset :=
                { overlapped := false
                  num_rows := 0
                  data_size := 0
                  delete_predicate := some p } } } := by
  refine ⟨rfl, ?_⟩
  unfold Tablet.delete_data Tablet.put_txn_log MetaStore.put_txn_log
  simp only [hfree]
  refine ⟨_, rfl, ?_⟩
  unfold MetaStore.findPending
  simp [List.find?]

/-- Witness for C2 on the empty store: storing succeeds and the built log
is the pending log of (1, 7). -/
theorem delete_data_builds_log_witness :
    store0.findPending 1 7 = none ∧
    ∃ s2 : MetaStore,
      tabletW.delete_data store0 7 predW = Except.ok s2 ∧
      s2.findPending 1 7 =
        some
          { tablet_id := 1
            txn_id := 7
            op_write := some
              { rowset :=
                { overlapped := false
                  num_rows := 0
                  data_size := 0
                  delete_predicate := some predW } } } :=
  ⟨rfl, (delete_data_builds_log store0 tabletW 7 predW rfl).2⟩

/-- Claim C3: writer selection is a pure case split over (key model,
batching mode): with the schema resolved, a primary-key schema yields the
primary-key horizontal/vertical writer and any other key model the general
horizontal/vertical writer, each carrying exactly the forwarded arguments;
moreover any schema resolution yielding the same schema yields the same
writer, so the selection depends on nothing but the schema's key type, the
batching mode and the forwarded arguments (it never sees row data). -/
theorem new_writer_selection (mgr : Int → Option Int → StatusOr TabletSchema)
    (t : Tablet) (txn : Int) (cap pool : Nat) (comp : Bool)
    (sch : TabletSchema) (h : (t.get_schema mgr).1 = Except.ok sch) :
    (sch.keys_type = KeysType.PRIMARY_KEYS →
      t.new_writer mgr WriterType.kHorizontal txn cap pool comp =
        Except.ok (TabletWriter.horizontalPk t.id sch txn pool comp) ∧
      t.new_writer mgr WriterType.kVertical txn cap pool comp =
        Except.ok (TabletWriter.verticalPk t.id sch txn cap pool comp)) ∧
    (sch.keys_type ≠ KeysType.PRIMARY_KEYS →
      t.new_writer mgr WriterType.kHorizontal txn cap pool comp =
        Except.ok (TabletWriter.horizontalGeneral t.id sch txn comp pool) ∧
      t.new_writer mgr WriterType.kVertical txn cap pool comp =
        Except.ok (TabletWriter.verticalGeneral t.id sch txn cap comp pool)) ∧
    (∀ (mgr2 : Int → Option Int → StatusOr TabletSchema) (ty : WriterType),
      (t.get_schema mgr2).1 = Except.ok sch →
      t.new_writer mgr2 ty txn cap pool comp = t.new_writer mgr ty txn cap pool comp) := by
  refine ⟨?_, ?_, ?_⟩
  · intro hk
    unfold Tablet.new_writer
    rw [h]
    simp [hk]
  · intro hk
    unfold Tablet.new_writer
    rw [h]
    simp [hk]
  · intro mgr2 ty h2
    unfold Tablet.new_writer
    rw [h, h2]

/-- Witness for C3 on a tablet with a cached primary-key schema. -/
theorem new_writer_selection_witness :
    (tabletPk.get_schema mgrErr).1 = Except.ok schemaPk ∧
    schemaPk.keys_type = KeysType.PRIMARY_KEYS ∧
    tabletPk.new_writer mgrErr WriterType.kVertical 7 100 3 false =
      Except.ok (TabletWriter.verticalPk 1 schemaPk 7 100 3 false) :=
  ⟨rfl, rfl,
    ((new_writer_selection mgrErr tabletPk 7 100 3 false schemaPk rfl).1 rfl).2⟩

/-- Counterexample to claim C4: with a cached non-primary-key schema,
`new_writer(kVertical, txn 7, max_rows_per_segment 0)` does not fail with
InvalidArgument — it succeeds and constructs a vertical writer whose row
cap is 0. -/
theorem new_writer_vertical_zero_cap_counterexample :
    tabletDup.new_writer mgrErr WriterType.kVertical 7 0 3 false =
      Except.ok (TabletWriter.verticalGeneral 1 schemaDup 7 0 false 3) := by
  rfl

/-- Amended claim C4: `new_writer` performs no validation of
`max_rows_per_segment`; whenever schema resolution succeeds, calling it
with vertical batching mode and a zero row cap returns the vertical writer
(primary-key or general, by key model) with row cap 0 rather than an
InvalidArgument-class error. -/
theorem new_writer_vertical_zero_cap_no_validation
    (mgr : Int → Option Int → StatusOr TabletSchema) (t : Tablet)
    (txn : Int) (pool : Nat) (comp : Bool) (sch : TabletSchema)
    (h : (t.get_schema mgr).1 = Except.ok sch) :
    t.new_writer mgr WriterType.kVertical txn 0 pool comp =
      Except.ok
        (if sch.keys_type = KeysType.PRIMARY_KEYS then
          TabletWriter.verticalPk t.id sch txn 0 pool comp
        else
          TabletWriter.verticalGeneral t.id sch txn 0 comp pool) := by
  unfold Tablet.new_writer
  rw [h]
  by_cases hk : sch.keys_type = KeysType.PRIMARY_KEYS <;> simp [hk]

/-- Witness for the amended C4 on a tablet with a cached primary-key
schema. -/
theorem new_writer_vertical_zero_cap_no_validation_witness :
    (tabletPk.get_schema mgrErr).1 = Except.ok schemaPk ∧
    tabletPk.new_writer mgrErr WriterType.kVertical 7 0 3 false =
      Except.ok
        (if schemaPk.keys_type = KeysType.PRIMARY_KEYS then
          TabletWriter.verticalPk 1 schemaPk 7 0 3 false
        else
          TabletWriter.verticalGeneral 1 schemaPk 7 0 false 3) :=
  ⟨rfl, new_writer_vertical_zero_cap_no_validation mgrErr tabletPk 7 3 false schemaPk rfl⟩

/-- Claim C5: the statistics reads are fallible with default-on-error:
`data_size` and `num_rows` return 0 whenever the underlying lookup fails
with any error, and return the looked-up value unchanged whenever it
succeeds. -/
theorem stats_default_on_error (dsz : Int → Int → StatusOr Int)
    (nrw : Int → Int → StatusOr Nat) (t : Tablet) :
    (∀ e, dsz t.id t.version_hint = Except.error e → t.data_size dsz = 0) ∧
    (∀ v, dsz t.id t.version_hint = Except.ok v → t.data_size dsz = v) ∧
    (∀ e, nrw t.id t.version_hint = Except.error e → t.num_rows nrw = 0) ∧
    (∀ n, nrw t.id t.version_hint = Except.ok n → t.num_rows nrw = n) := by
  refine ⟨?_, ?_, ?_, ?_⟩ <;> intro x hx <;>
    simp only [Tablet.data_size, Tablet.num_rows] <;> rw [hx]

/-- Witness for C5: a failing data-size lookup yields 0 and a successful
row-count lookup yields its value. -/
theorem stats_default_on_error_witness :
    tabletW.data_size lookupErrI = 0 ∧ tabletW.num_rows lookupOkN = 5 :=
  ⟨(stats_default_on_error lookupErrI lookupOkN tabletW).1
      { code := ErrCode.ioError, msg := "io error" } rfl,
   (stats_default_on_error lookupErrI lookupOkN tabletW).2.2.2 5 rfl⟩

/-- Claim C6: `get_rowsets(version)` fails with a NotFound status when no
metadata is stored at that version, returns exactly the rowset list
extracted from the resolved metadata otherwise, and propagates any
metadata-resolution failure verbatim. -/
theorem get_rowsets_spec (s : MetaStore) (t : Tablet) (v : Int) :
    (s.findMeta t.id v = none →
      ∃ st : Status, t.get_rowsets s v = Except.error st ∧ st.code = ErrCode.notFound) ∧
    (∀ m, s.findMeta t.id v = some m →
      t.get_rowsets s v = Except.ok (Rowset.get_rowsets m)) ∧
    (∀ e, t.get_metadata s v = Except.error e → t.get_rowsets s v = Except.error e) := by
  refine ⟨?_, ?_, ?_⟩
  · intro hm
    unfold Tablet.get_rowsets Tablet.get_metadata MetaStore.get_tablet_metadata
    rw [hm]
    exact ⟨_, rfl, rfl⟩
  · intro m hm
    unfold Tablet.get_rowsets Tablet.get_metadata MetaStore.get_tablet_metadata
    rw [hm]
  · intro e he
    unfold Tablet.get_rowsets
    rw [he]

/-- Witness for C6: tablet 1 has no metadata in the empty store, so
`get_rowsets(1)` fails with NotFound. -/
theorem get_rowsets_spec_witness :
    store0.findMeta 1 1 = none ∧
    ∃ st : Status, tabletW.get_rowsets store0 1 = Except.error st ∧
      st.code = ErrCode.notFound :=
  ⟨rfl, (get_rowsets_spec store0 tabletW 1).1 rfl⟩

/-- Claim C7: `get_schema` consults the underlying store only when both
caches are absent: a cached schema is returned with no store access; else a
schema built from the cached metadata is returned with no store access;
only with both caches empty is the manager lookup performed, passing the
version hint. -/
theorem get_schema_cache_order (mgr : Int → Option Int → StatusOr TabletSchema)
    (t : Tablet) :
    (∀ sch, t.cached_schema = some sch →
      t.get_schema mgr = (Except.ok sch, false)) ∧
    (∀ m, t.cached_schema = none → t.cached_metadata = some m →
      t.get_schema mgr = (Except.ok (TabletSchema.fromPB m.schema), false)) ∧
    (t.cached_schema = none → t.cached_metadata = none →
      t.get_schema mgr = (mgr t.id (some t.version_hint), true)) := by
  refine ⟨?_, ?_, ?_⟩
  · intro sch hs
    unfold Tablet.get_schema
    rw [hs]
  · intro m hs hm
    unfold Tablet.get_schema
    rw [hs, hm]
  · intro hs hm
    unfold Tablet.get_schema
    rw [hs, hm]

/-- Witness for C7: with both caches empty the store is consulted with the
version hint; with a cached schema it is not. -/
theorem get_schema_cache_order_witness :
    tabletW.get_schema mgrErr = (mgrErr 1 (some 0), true) ∧
    tabletPk.get_schema mgrErr = (Except.ok schemaPk, false) :=
  ⟨(get_schema_cache_order mgrErr tabletW).2.2 rfl rfl,
   (get_schema_cache_order mgrErr tabletPk).1 schemaPk rfl⟩

/-- Claim C8: every location accessor of the façade is a pure function of
the tablet id and its own argument (given the same location provider and
manager derivations): two tablet handles with the same id agree on every
accessor at every argument; no accessor touches or changes any other
tablet state. -/
theorem location_accessors_deterministic (lp : LocationProvider) (ml : MgrLocations)
    (t1 t2 : Tablet) (v txn : Int) (name : String) (h : t1.id = t2.id) :
    t1.metadata_location lp v = t2.metadata_location lp v ∧
    t1.metadata_root_location lp = t2.metadata_root_location lp ∧
    t1.txn_log_location lp txn = t2.txn_log_location lp txn ∧
    t1.txn_slog_location ml txn = t2.txn_slog_location ml txn ∧
    t1.txn_vlog_location lp v = t2.txn_vlog_location lp v ∧
    t1.segment_location lp name = t2.segment_location lp name ∧
    t1.del_location lp name = t2.del_location lp name ∧
    t1.delvec_location lp name = t2.delvec_location lp name ∧
    t1.sst_location ml name = t2.sst_location ml name ∧
    t1.root_location lp = t2.root_location lp := by
  unfold Tablet.metadata_location Tablet.metadata_root_location Tablet.txn_log_location
    Tablet.txn_slog_location Tablet.txn_vlog_location Tablet.segment_location
    Tablet.del_location Tablet.delvec_location Tablet.sst_location Tablet.root_location
  rw [h]
  exact ⟨rfl, rfl, rfl, rfl, rfl, rfl, rfl, rfl, rfl, rfl⟩

/-- Witness for C8: two handles of tablet 1 with different hints and caches
agree on the metadata location at version 4. -/
theorem location_accessors_deterministic_witness :
    tabletW.id = tabletHint2.id ∧
    tabletW.metadata_location lpW 4 = tabletHint2.metadata_location lpW 4 :=
  ⟨rfl, (location_accessors_deterministic lpW mlW tabletW tabletHint2 4 9 "f.dat" rfl).1⟩

/-- Claim C9: `num_rows` asserts (`DCHECK`) that the version hint is
nonzero; under that precondition the debug-semantics run does not abort and
agrees with the release run, and the statistics lookup is consulted only at
(tablet id, hinted version): any two lookups agreeing there give the same
result. -/
theorem num_rows_hint_precondition (nrw : Int → Int → StatusOr Nat) (t : Tablet)
    (h : t.version_hint ≠ 0) :
    t.num_rows_dbg nrw = some (t.num_rows nrw) ∧
    ∀ nrw2 : Int → Int → StatusOr Nat,
      nrw2 t.id t.version_hint = nrw t.id t.version_hint →
      t.num_rows nrw2 = t.num_rows nrw := by
  constructor
  · unfold Tablet.num_rows_dbg
    rw [if_neg h]
  · intro nrw2 he
    unfold Tablet.num_rows
    rw [he]

/-- Witness for C9 on a tablet whose version hint was set to 2. -/
theorem num_rows_hint_precondition_witness :
    tabletHint2.version_hint ≠ 0 ∧
    tabletHint2.num_rows_dbg lookupOkN = some (tabletHint2.num_rows lookupOkN) :=
  ⟨by decide, (num_rows_hint_precondition lookupOkN tabletHint2 (by decide)).1⟩

/-- Claim C10: the const accessor `tablet_schema()` swallows retrieval
failures: any manager error yields `none` (a null pointer) and any success
yields the schema, whereas `get_schema` (with both caches empty) returns
the manager's failure status to the caller. -/
theorem tablet_schema_swallows_errors (mgr : Int → Option Int → StatusOr TabletSchema)
    (t : Tablet) :
    (∀ e, mgr t.id none = Except.error e → t.tablet_schema mgr = none) ∧
    (∀ sch, mgr t.id none = Except.ok sch → t.tablet_schema mgr = some sch) ∧
    (∀ e, t.cached_schema = none → t.cached_metadata = none →
      mgr t.id (some t.version_hint) = Except.error e →
      (t.get_schema mgr).1 = Except.error e) := by
  refine ⟨?_, ?_, ?_⟩
  · intro e he
    unfold Tablet.tablet_schema
    rw [he]
  · intro sch hs
    unfold Tablet.tablet_schema
    rw [hs]
  · intro e hs hm he
    unfold Tablet.get_schema
    rw [hs, hm]
    exact he

/-- Witness for C10: a manager that always fails makes `tablet_schema`
return `none` while `get_schema` surfaces the error. -/
theorem tablet_schema_swallows_errors_witness :
    tabletW.tablet_schema mgrErr = none ∧
    (tabletW.get_schema mgrErr).1 =
      Except.error { code := ErrCode.ioError, msg := "io error" } :=
  ⟨(tablet_schema_swallows_errors mgrErr tabletW).1
      { code := ErrCode.ioError, msg := "io error" } rfl,
   (tablet_schema_swallows_errors mgrErr tabletW).2.2
      { code := ErrCode.ioError, msg := "io error" } rfl rfl rfl⟩
